import Mathlib

/-!
Verification of the Solana-program-deploy-via-Fordefi repository.

We shallowly embed the deployment planner (`src/tx-planner.ts`), the
Fordefi signing adapter's request-body construction (`signWithFordefi` in
`src/signers.ts`), the per-transaction retry executor
(`executeTransactionMessage` in `src/run.ts`), and the buffer-recovery
utility (`src/close-buffer.ts`).  Network calls (RPC rent queries,
blockhash fetch, the Fordefi oracle, broadcast) are abstracted as
function parameters / per-attempt outcome oracles; byte payloads are
`List Nat`; addresses are `String`.
-/

namespace SolanaDeploy

/-- JavaScript `a || b` on an optional string: `b` when `a` is absent or
falsy (the empty string), otherwise the string held by `a`. -/
def jsOr (a : Option String) (b : String) : String :=
  match a with
  | some s => if s = "" then b else s
  | none => b

/-- `needle.isPrefixOf hay || ...` scan: does `needle` occur as a
contiguous sublist of `hay`?  Used to model JavaScript
`String.prototype.includes`. -/
def containsSub (hay needle : List Char) : Bool :=
  if needle.isPrefixOf hay then true
  else
    match hay with
    | [] => false
    | _ :: t => containsSub t needle

/-- JavaScript `hay.includes(needle)` on strings. -/
def strIncludes (hay needle : String) : Bool :=
  containsSub hay.data needle.data

/-! ## The deployment planner (`createTxPlan`, src/tx-planner.ts)

The planner reads the program binary, then emits in order:
create-buffer-account, initialize-buffer, the write-chunk loop
(`chunkSize = 900`), create-program-account, and deploy-with-max-data-len.
Keypair/PDA-derived addresses and the rent-exemption RPC are parameters.
-/

/-- One planned instruction, as built by `createTxPlan` (variants of
`src/tx-planner.ts`: `getCreateAccountInstruction`,
`getInitializeBufferInstruction`, `getWriteInstruction`,
`getDeployWithMaxDataLenInstruction`) plus the `getCloseInstruction` used
by `src/close-buffer.ts`. -/
inductive Operation where
  | createAccount (payer newAccount : String) (lamports space : Nat) (owner : String)
  | initBuffer (bufferAccount bufferAuthority : String)
  | writeChunk (bufferAccount bufferAuthority : String) (offset : Nat) (bytes : List Nat)
  | deploy (authority bufferAccount payerAccount programDataAccount programAccount : String)
      (maxDataLen : Nat)
  | close (account destination authority : String)
  deriving Repr, DecidableEq

/-- Addresses fixed before planning: the Fordefi vault (fee payer and
authority), the locally generated buffer and program keypairs' addresses,
the derived program-data PDA, and the loader-v3 program id. -/
structure PlanEnv where
  deployerVault : String
  bufferAddr : String
  programAddr : String
  programDataAddr : String
  loaderAddr : String
  deriving Repr, DecidableEq

/-- The write loop of `createTxPlan` (src/tx-planner.ts lines 47-61):
`while (offset < dataSize.length) { chunk = dataSize.slice(offset, offset
+ chunkSize); push(write …); offset += chunkSize }` with
`chunkSize = 900`.  `payload.slice(o, o+900)` is `(payload.drop o).take
900`. -/
def writeLoop (env : PlanEnv) (payload : List Nat) (offset : Nat) : List Operation :=
  if offset < payload.length then
    Operation.writeChunk env.bufferAddr env.deployerVault offset
        ((payload.drop offset).take 900)
      :: writeLoop env payload (offset + 900)
  else []
  termination_by payload.length - offset
  decreasing_by omega

/-- `createTxPlan` (src/tx-planner.ts): ordered instruction list.
`rentFn` stands for the `getMinimumBalanceForRentExemption` RPC call;
`bufferSize = payload.length + 37`, `maxDataLen = payload.length +
10000`, `PROGRAM_ACCOUNT_SIZE = 36`.  The function never rejects an
empty payload: the write loop simply runs zero times. -/
def createTxPlan (env : PlanEnv) (rentFn : Nat → Nat) (payload : List Nat) :
    List Operation :=
  let bufferSize := payload.length + 37
  let lamports := rentFn bufferSize
  let setupIxs : List Operation :=
    [ Operation.createAccount env.deployerVault env.bufferAddr lamports bufferSize
        env.loaderAddr,
      Operation.initBuffer env.bufferAddr env.deployerVault ]
  let writeBufferIxs := writeLoop env payload 0
  let maxDataLen := payload.length + 10000
  let programAccountRent := rentFn 36
  let createProgramAccount :=
    Operation.createAccount env.deployerVault env.programAddr programAccountRent 36
      env.loaderAddr
  let deployInstruction :=
    Operation.deploy env.deployerVault env.bufferAddr env.deployerVault
      env.programDataAddr env.programAddr maxDataLen
  setupIxs ++ writeBufferIxs ++ [createProgramAccount, deployInstruction]

/-- Is an operation a buffer write? -/
def Operation.isWrite : Operation → Bool
  | .writeChunk .. => true
  | _ => false

/-- Offset field of a write operation (0 otherwise). -/
def Operation.chunkOffset : Operation → Nat
  | .writeChunk _ _ o _ => o
  | _ => 0

/-- Bytes field of a write operation (empty otherwise). -/
def Operation.chunkBytes : Operation → List Nat
  | .writeChunk _ _ _ b => b
  | _ => []

/-- The write operations of a plan, in plan order. -/
def writeOps (plan : List Operation) : List Operation :=
  plan.filter Operation.isWrite

/-- Does an operation mutate the buffer (escrow) account?  Only
initialize-buffer and write-chunk write into the buffer account's data;
creation allocates it and deploy consumes it. -/
def Operation.mutatesBuffer (env : PlanEnv) : Operation → Bool
  | .initBuffer b _ => b = env.bufferAddr
  | .writeChunk b _ _ _ => b = env.bufferAddr
  | _ => false

theorem writeLoop_eq (env : PlanEnv) (payload : List Nat) (offset : Nat) :
    writeLoop env payload offset =
      if offset < payload.length then
        Operation.writeChunk env.bufferAddr env.deployerVault offset
            ((payload.drop offset).take 900)
          :: writeLoop env payload (offset + 900)
      else [] := by
  rw [writeLoop]

/-- Closed form of the write loop: chunk `i` starts at `offset + 900*i`
and takes the next 900 bytes; there are `ceil((len - offset)/900)`
chunks. -/
theorem writeLoop_eq_map (env : PlanEnv) (payload : List Nat) (offset : Nat) :
    writeLoop env payload offset =
      (List.range ((payload.length - offset + 899) / 900)).map (fun i =>
        Operation.writeChunk env.bufferAddr env.deployerVault (offset + 900 * i)
          ((payload.drop (offset + 900 * i)).take 900)) := by
  rw [writeLoop_eq]
  split
  next h =>
    have hn : (payload.length - offset + 899) / 900
        = (payload.length - (offset + 900) + 899) / 900 + 1 := by omega
    rw [hn, List.range_succ_eq_map, List.map_cons,
      writeLoop_eq_map env payload (offset + 900), List.map_map]
    refine congrArg₂ List.cons (by simp) ?_
    refine List.map_congr_left ?_
    intro i _
    have he : offset + 900 + 900 * i = offset + 900 * (i + 1) := by ring
    simp [Function.comp, he]
  next h =>
    have hz : (payload.length - offset + 899) / 900 = 0 := by omega
    rw [hz]
    simp
  termination_by payload.length - offset
  decreasing_by omega

/-- Concatenating the chunk bytes of the write loop started at `offset`
recovers `payload.drop offset`. -/
theorem writeLoop_join (env : PlanEnv) (payload : List Nat) (offset : Nat) :
    ((writeLoop env payload offset).map Operation.chunkBytes).flatten
      = payload.drop offset := by
  rw [writeLoop_eq]
  split
  next h =>
    rw [List.map_cons, List.flatten_cons, writeLoop_join env payload (offset + 900)]
    have hd : payload.drop (offset + 900) = (payload.drop offset).drop 900 := by
      rw [List.drop_drop]
    rw [hd]
    simp [Operation.chunkBytes]
  next h =>
    have : payload.drop offset = [] := List.drop_eq_nil_of_le (by omega)
    simp [this]
  termination_by payload.length - offset
  decreasing_by omega

theorem writeLoop_length (env : PlanEnv) (payload : List Nat) (offset : Nat) :
    (writeLoop env payload offset).length
      = (payload.length - offset + 899) / 900 := by
  rw [writeLoop_eq_map]
  simp

theorem writeLoop_filter (env : PlanEnv) (payload : List Nat) (offset : Nat) :
    (writeLoop env payload offset).filter Operation.isWrite
      = writeLoop env payload offset := by
  rw [List.filter_eq_self]
  intro a ha
  rw [writeLoop_eq_map] at ha
  obtain ⟨i, _, rfl⟩ := List.mem_map.mp ha
  rfl

/-- In the full plan, the write operations are exactly the write loop's
output, in order. -/
theorem writeOps_createTxPlan (env : PlanEnv) (rentFn : Nat → Nat)
    (payload : List Nat) :
    writeOps (createTxPlan env rentFn payload) = writeLoop env payload 0 := by
  unfold createTxPlan writeOps
  simp only [List.filter_append]
  rw [writeLoop_filter]
  simp [Operation.isWrite, List.filter]

/-! ## The Fordefi signing adapter (`signWithFordefi`, src/signers.ts)

`signWithFordefi` fetches a fresh blockhash, partially signs locally,
then posts a JSON body to the Fordefi API.  We model the request body it
builds; the blockhash fetch, the local partial signatures and the
base64-serialized message are parameters. -/

/-- The `fee` object of the Fordefi request body. -/
structure FeeSpec where
  type : String
  unit_price : String
  deriving Repr, DecidableEq

/-- The `details` object of the Fordefi request body
(`solana_serialized_transaction_message`). -/
structure TxRequestDetails where
  type : String
  push_mode : String
  chain : String
  data : String
  signatures : List (Option String)
  skip_prediction : Bool
  fee : FeeSpec
  deriving Repr, DecidableEq

/-- The JSON body `signWithFordefi` posts to `/api/v1/transactions`. -/
structure TxRequestBody where
  vault_id : String
  signer_type : String
  sign_mode : String
  type : String
  details : TxRequestDetails
  deriving Repr, DecidableEq

/-- The fields of `fordefiConfig` (src/config.ts) that the signing
adapter reads.  `defaultFeeLamports` is the literal `'5000'` in the
source; `apiPathEndpoint` is `'/api/v1/transactions'`. -/
structure FordefiConfigModel where
  deployerVaultId : String
  deployerVaultAddress : String
  defaultFeeLamports : String
  apiPathEndpoint : String
  deriving Repr, DecidableEq

/-- The constant part of `fordefiConfig` from src/config.ts (vault id
and address come from environment variables and stay abstract at use
sites). -/
def mkFordefiConfig (vaultId vaultAddress : String) : FordefiConfigModel :=
  { deployerVaultId := vaultId
    deployerVaultAddress := vaultAddress
    defaultFeeLamports := "5000"
    apiPathEndpoint := "/api/v1/transactions" }

/-- The request body built by `signWithFordefi` (src/signers.ts):
`feeLamports = customFeeLamports || fordefiConfig.defaultFeeLamports`
(JavaScript `||`, so an absent argument — and also an empty string —
falls back to the config constant), `skip_prediction: true`,
`fee: { type: "custom", unit_price: feeLamports }`. -/
def signWithFordefiBody (cfg : FordefiConfigModel)
    (customFeeLamports : Option String) (base64EncodedData : String)
    (signatures : List (Option String)) : TxRequestBody :=
  let feeLamports := jsOr customFeeLamports cfg.defaultFeeLamports
  { vault_id := cfg.deployerVaultId
    signer_type := "api_signer"
    sign_mode := "auto"
    type := "solana_transaction"
    details :=
      { type := "solana_serialized_transaction_message"
        push_mode := "manual"
        chain := "solana_devnet"
        data := base64EncodedData
        signatures := signatures
        skip_prediction := true
        fee := { type := "custom", unit_price := feeLamports } } }

/-! ## The retry executor (`executeTransactionMessage`, src/run.ts)

Each attempt calls `signWithFordefi` (which fetches a fresh blockhash)
and then broadcasts; we model one attempt as an oracle from the attempt
number to its outcome.  A thrown JavaScript error is modelled by the two
message fields the catch block reads. -/

/-- A thrown JavaScript error as seen by the catch block:
`error?.cause?.message` and `error?.message` (either may be absent). -/
structure JsError where
  causeMsg : Option String
  msg : Option String
  deriving Repr, DecidableEq

/-- `const errorMsg = error?.cause?.message || error?.message || ''`. -/
def JsError.errorMsg (e : JsError) : String :=
  jsOr e.causeMsg (jsOr e.msg "")

/-- The recoverability test of the catch block:
`errorMsg.includes('Blockhash not found') || errorMsg.includes('blockhash')`. -/
def isBlockhashExpiredError (e : JsError) : Bool :=
  strIncludes e.errorMsg "Blockhash not found" || strIncludes e.errorMsg "blockhash"

/-- Outcome of one sign-and-broadcast attempt. -/
inductive AttemptResult where
  | ok (tx : String)
  | err (e : JsError)
  deriving Repr, DecidableEq

/-- Result of `executeTransactionMessage` for one transaction:
`success` returns the decoded transaction after `attempts` attempts;
`thrown` is the immediate `throw error` on a non-blockhash error;
`exhausted` is the final `throw lastError` after the loop, recording the
total number of attempts made. -/
inductive ExecResult where
  | success (tx : String) (attempts : Nat)
  | thrown (e : JsError) (attempts : Nat)
  | exhausted (attempts : Nat) (lastError : Option JsError)
  deriving Repr, DecidableEq

/-- How many sign-and-broadcast attempts a result records. -/
def ExecResult.attempts : ExecResult → Nat
  | .success _ a => a
  | .thrown _ a => a
  | .exhausted a _ => a

/-- `const maxRetries = 3` in src/run.ts. -/
def maxRetries : Nat := 3

/-- The `for (let attempt = 1; attempt <= maxRetries; attempt++)` loop of
`executeTransactionMessage`: `attempt` is the current attempt number,
`remaining` the attempts the loop will still run, `lastError` the
`lastError` variable.  A successful attempt returns; a blockhash error
`continue`s; any other error is rethrown at once; a finished loop throws
`lastError`. -/
def execRetryLoop (outcomes : Nat → AttemptResult) :
    Nat → Nat → Option JsError → ExecResult
  | attempt, 0, lastError => .exhausted (attempt - 1) lastError
  | attempt, remaining + 1, _ =>
    match outcomes attempt with
    | .ok tx => .success tx attempt
    | .err e =>
      if isBlockhashExpiredError e then
        execRetryLoop outcomes (attempt + 1) remaining (some e)
      else .thrown e attempt

/-- `executeTransactionMessage` (src/run.ts lines 495-538) for one
transaction, given the per-attempt outcome of its sign-and-broadcast
step (each attempt re-enters `signWithFordefi`, which fetches a fresh
blockhash, hence the outcome is indexed by the attempt number). -/
def executeTransactionMessage (outcomes : Nat → AttemptResult) : ExecResult :=
  execRetryLoop outcomes 1 maxRetries none

/-- The transaction-plan executor run over a sequential plan
(`transactionPlanExecutor(transactionPlan)` in src/run.ts with the plan
built by `kit.sequentialInstructionPlan`): transactions execute strictly
in order and the first thrown error aborts the whole run.  Returns the
signed transactions on success, or the zero-based index of the failing
transaction with the error that escaped its retry loop. -/
def runPlanFrom (k : Nat) :
    List (Nat → AttemptResult) → Except (Nat × Option JsError) (List String)
  | [] => .ok []
  | t :: rest =>
    match executeTransactionMessage t with
    | .success tx _ =>
      match runPlanFrom (k + 1) rest with
      | .ok txs => .ok (tx :: txs)
      | .error e => .error e
    | .thrown e _ => .error (k, some e)
    | .exhausted _ lastError => .error (k, lastError)

/-- Execute a whole sequential plan, one outcome oracle per transaction. -/
def runPlan (txs : List (Nat → AttemptResult)) :
    Except (Nat × Option JsError) (List String) :=
  runPlanFrom 0 txs

/-! ## The buffer-recovery utility (`main`, src/close-buffer.ts)

After the access-token check, the utility fetches the buffer account's
info; if absent it reports an error and returns without further action.
Otherwise it builds one `Close` instruction, signs it via
`signWithFordefi` (one single call, no try/catch around it), and
broadcasts the result once. -/

/-- Externally observable steps of the recovery utility, in order. -/
inductive CloseEvent where
  | signAttempt
  | broadcast
  deriving Repr, DecidableEq

/-- Terminal outcome of the recovery utility. -/
inductive CloseResult where
  | noAccessToken
  | accountNotFound
  | failed (e : JsError)
  | finished (signature : String)
  deriving Repr, DecidableEq

/-- Full run record of the recovery utility: outcome, the instruction
list of the transaction message it built (empty when it never built
one), and the sign/broadcast steps it performed. -/
structure CloseRun where
  result : CloseResult
  builtOps : List Operation
  events : List CloseEvent
  deriving Repr, DecidableEq

/-- `main` of src/close-buffer.ts.  `accountInfo` is the RPC
`getAccountInfo` value (`none` when the account does not exist, else its
lamport balance); `signOutcome` is the single `signWithFordefi` call's
outcome; `broadcastOutcome` the single `sendTransaction` call's outcome.
An error thrown by either step propagates (caught only by the top-level
`main().catch`). -/
def closeBufferMain (cfg : FordefiConfigModel) (accessToken : String)
    (bufferAddress : String) (accountInfo : Option Nat)
    (signOutcome : Except JsError String)
    (broadcastOutcome : Except JsError String) : CloseRun :=
  if accessToken = "" then
    { result := .noAccessToken, builtOps := [], events := [] }
  else
    match accountInfo with
    | none => { result := .accountNotFound, builtOps := [], events := [] }
    | some _ =>
      let closeIx := Operation.close bufferAddress cfg.deployerVaultAddress
        cfg.deployerVaultAddress
      match signOutcome with
      | .error e =>
        { result := .failed e, builtOps := [closeIx], events := [.signAttempt] }
      | .ok _ =>
        match broadcastOutcome with
        | .error e =>
          { result := .failed e, builtOps := [closeIx]
            events := [.signAttempt, .broadcast] }
        | .ok sig =>
          { result := .finished sig, builtOps := [closeIx]
            events := [.signAttempt, .broadcast] }

/-! ## Helper lemmas about the plan's write operations -/

theorem plan_write_count (env : PlanEnv) (rentFn : Nat → Nat) (payload : List Nat) :
    (writeOps (createTxPlan env rentFn payload)).length
      = (payload.length + 899) / 900 := by
  rw [writeOps_createTxPlan, writeLoop_length]
  simp

theorem plan_write_get (env : PlanEnv) (rentFn : Nat → Nat) (payload : List Nat)
    (i : Nat) (h : i < (writeOps (createTxPlan env rentFn payload)).length) :
    (writeOps (createTxPlan env rentFn payload)).get ⟨i, h⟩
      = Operation.writeChunk env.bufferAddr env.deployerVault (900 * i)
          ((payload.drop (900 * i)).take 900) := by
  have hW : writeOps (createTxPlan env rentFn payload)
      = (List.range ((payload.length + 899) / 900)).map (fun i =>
          Operation.writeChunk env.bufferAddr env.deployerVault (900 * i)
            ((payload.drop (900 * i)).take 900)) := by
    rw [writeOps_createTxPlan, writeLoop_eq_map]
    simp
  have hi : i < (payload.length + 899) / 900 := by
    have := h
    rw [plan_write_count] at this
    exact this
  rw [List.get_of_eq hW]
  simp

theorem chunk_take_length (payload : List Nat) (o : Nat) :
    ((payload.drop o).take 900).length = min 900 (payload.length - o) := by
  simp

/-! ## Claim theorems -/

/-- C1.  For every payload of length `L > 0`, the planner's write loop
(`chunkSize = 900`) produces exactly `ceil(L / 900) = (L + 899) / 900`
write-chunk operations; their offsets are `0, 900, 1800, …` (the `i`-th
is `900 * i`); consecutive byte ranges abut (next offset = previous
offset + previous length: no gaps, no overlaps) and the last range ends
exactly at `L` (together a contiguous partition of `[0, L)`); every
chunk has length 900 except possibly the last, whose length is
`L - 900 * (count - 1)`. -/
theorem claim_C1_write_partition (env : PlanEnv) (rentFn : Nat → Nat)
    (payload : List Nat) (_hp : 0 < payload.length) (W : List Operation)
    (hW : W = writeOps (createTxPlan env rentFn payload)) :
    W.length = (payload.length + 899) / 900
    ∧ (∀ i (h : i < W.length), (W.get ⟨i, h⟩).chunkOffset = 900 * i)
    ∧ (∀ i (h1 : i < W.length) (h2 : i + 1 < W.length),
        (W.get ⟨i + 1, h2⟩).chunkOffset
          = (W.get ⟨i, h1⟩).chunkOffset + (W.get ⟨i, h1⟩).chunkBytes.length)
    ∧ (∀ h : W.length - 1 < W.length,
        (W.get ⟨W.length - 1, h⟩).chunkOffset
          + (W.get ⟨W.length - 1, h⟩).chunkBytes.length = payload.length)
    ∧ (∀ i (h : i < W.length), i + 1 < W.length →
        (W.get ⟨i, h⟩).chunkBytes.length = 900)
    ∧ (∀ h : W.length - 1 < W.length,
        (W.get ⟨W.length - 1, h⟩).chunkBytes.length
          = payload.length - 900 * (W.length - 1)) := by
  subst hW
  have hc := plan_write_count env rentFn payload
  refine ⟨hc, ?_, ?_, ?_, ?_, ?_⟩
  · intro i h
    rw [plan_write_get]
    rfl
  · intro i h1 h2
    rw [plan_write_get, plan_write_get]
    have hi : i + 1 < (payload.length + 899) / 900 := by rw [hc] at h2; exact h2
    simp only [Operation.chunkOffset, Operation.chunkBytes, List.length_take,
      List.length_drop]
    omega
  · intro h
    rw [plan_write_get]
    simp only [Operation.chunkOffset, Operation.chunkBytes, List.length_take,
      List.length_drop, hc]
    omega
  · intro i h hsucc
    rw [plan_write_get]
    have hi : i + 1 < (payload.length + 899) / 900 := by rw [hc] at hsucc; exact hsucc
    simp only [Operation.chunkBytes, List.length_take, List.length_drop]
    omega
  · intro h
    rw [plan_write_get]
    simp only [Operation.chunkBytes, List.length_take, List.length_drop, hc]
    omega

/-- Sample planning environment used by concrete witnesses. -/
def sampleEnv : PlanEnv :=
  { deployerVault := "VAULT", bufferAddr := "BUFFER", programAddr := "PROGRAM"
    programDataAddr := "PROGDATA", loaderAddr := "LOADER" }

/-- A sample payload of 1900 bytes (the spec's example scenario). -/
def samplePayload : List Nat := List.replicate 1900 7

theorem samplePayload_length : samplePayload.length = 1900 :=
  List.length_replicate 1900 7

/-- C1 witness at the spec's example payload (1900 bytes). -/
theorem claim_C1_witness :
    0 < samplePayload.length
    ∧ ((writeOps (createTxPlan sampleEnv (fun n => n) samplePayload)).length
          = (samplePayload.length + 899) / 900
        ∧ (∀ i (h : i < (writeOps (createTxPlan sampleEnv (fun n => n)
              samplePayload)).length),
            ((writeOps (createTxPlan sampleEnv (fun n => n) samplePayload)).get
                ⟨i, h⟩).chunkOffset = 900 * i)
        ∧ (∀ i (h1 : i < (writeOps (createTxPlan sampleEnv (fun n => n)
                samplePayload)).length)
            (h2 : i + 1 < (writeOps (createTxPlan sampleEnv (fun n => n)
                samplePayload)).length),
            ((writeOps (createTxPlan sampleEnv (fun n => n) samplePayload)).get
                ⟨i + 1, h2⟩).chunkOffset
              = ((writeOps (createTxPlan sampleEnv (fun n => n) samplePayload)).get
                    ⟨i, h1⟩).chunkOffset
                + ((writeOps (createTxPlan sampleEnv (fun n => n) samplePayload)).get
                    ⟨i, h1⟩).chunkBytes.length)
        ∧ (∀ h : (writeOps (createTxPlan sampleEnv (fun n => n)
              samplePayload)).length - 1
            < (writeOps (createTxPlan sampleEnv (fun n => n) samplePayload)).length,
            ((writeOps (createTxPlan sampleEnv (fun n => n) samplePayload)).get
                ⟨(writeOps (createTxPlan sampleEnv (fun n => n)
                    samplePayload)).length - 1, h⟩).chunkOffset
              + ((writeOps (createTxPlan sampleEnv (fun n => n) samplePayload)).get
                    ⟨(writeOps (createTxPlan sampleEnv (fun n => n)
                        samplePayload)).length - 1, h⟩).chunkBytes.length
              = samplePayload.length)
        ∧ (∀ i (h : i < (writeOps (createTxPlan sampleEnv (fun n => n)
              samplePayload)).length),
            i + 1 < (writeOps (createTxPlan sampleEnv (fun n => n)
                samplePayload)).length →
            ((writeOps (createTxPlan sampleEnv (fun n => n) samplePayload)).get
                ⟨i, h⟩).chunkBytes.length = 900)
        ∧ (∀ h : (writeOps (createTxPlan sampleEnv (fun n => n)
              samplePayload)).length - 1
            < (writeOps (createTxPlan sampleEnv (fun n => n) samplePayload)).length,
            ((writeOps (createTxPlan sampleEnv (fun n => n) samplePayload)).get
                ⟨(writeOps (createTxPlan sampleEnv (fun n => n)
                    samplePayload)).length - 1, h⟩).chunkBytes.length
              = samplePayload.length
                - 900 * ((writeOps (createTxPlan sampleEnv (fun n => n)
                    samplePayload)).length - 1))) :=
  ⟨by rw [samplePayload_length]; omega,
    claim_C1_write_partition sampleEnv (fun n => n) samplePayload
      (by rw [samplePayload_length]; omega) _ rfl⟩

/-- C2.  For every payload, concatenating the `bytes` fields of the
plan's write operations in increasing offset order yields exactly the
original payload; the offsets are strictly increasing in plan order, so
plan order and increasing-offset order coincide. -/
theorem claim_C2_roundtrip (env : PlanEnv) (rentFn : Nat → Nat)
    (payload : List Nat) :
    ((writeOps (createTxPlan env rentFn payload)).map Operation.chunkBytes).flatten
        = payload
    ∧ ((writeOps (createTxPlan env rentFn payload)).map
        Operation.chunkOffset).Pairwise (· < ·) := by
  constructor
  · rw [writeOps_createTxPlan, writeLoop_join]
    simp
  · rw [writeOps_createTxPlan, writeLoop_eq_map, List.map_map]
    have hcomp : (Operation.chunkOffset ∘ fun i =>
        Operation.writeChunk env.bufferAddr env.deployerVault (0 + 900 * i)
          ((payload.drop (0 + 900 * i)).take 900)) = fun i => 900 * i := by
      funext i
      simp [Operation.chunkOffset]
    rw [hcomp, List.pairwise_map]
    exact (List.pairwise_lt_range _).imp (by omega)

/-- C5 counterexample.  `createTxPlan` has no empty-payload check: for a
payload of length 0 it does not fail but returns a 4-operation plan
(create-buffer, initialize-buffer, create-program, deploy) with zero
write operations; no `InvalidPayload` error exists anywhere in the
source. -/
theorem claim_C5_counterexample :
    createTxPlan sampleEnv (fun n => n) []
      = [Operation.createAccount "VAULT" "BUFFER" 37 37 "LOADER",
         Operation.initBuffer "BUFFER" "VAULT",
         Operation.createAccount "VAULT" "PROGRAM" 36 36 "LOADER",
         Operation.deploy "VAULT" "BUFFER" "VAULT" "PROGDATA" "PROGRAM" 10000]
    ∧ writeOps (createTxPlan sampleEnv (fun n => n) []) = [] := by
  have h0 : writeLoop sampleEnv [] 0 = [] := by
    rw [writeLoop_eq]
    simp
  constructor
  · simp only [createTxPlan]
    rw [h0]
    rfl
  · rw [writeOps_createTxPlan, h0]

/-- C5 amended.  For a payload of length 0, planning does not fail: the
planner returns a plan containing zero write-chunk operations — just the
two setup operations followed by the two finalize operations. -/
theorem claim_C5_amended (env : PlanEnv) (rentFn : Nat → Nat) :
    writeOps (createTxPlan env rentFn []) = []
    ∧ createTxPlan env rentFn []
      = [Operation.createAccount env.deployerVault env.bufferAddr (rentFn 37) 37
           env.loaderAddr,
         Operation.initBuffer env.bufferAddr env.deployerVault,
         Operation.createAccount env.deployerVault env.programAddr (rentFn 36) 36
           env.loaderAddr,
         Operation.deploy env.deployerVault env.bufferAddr env.deployerVault
           env.programDataAddr env.programAddr 10000] := by
  have h0 : writeLoop env [] 0 = [] := by
    rw [writeLoop_eq]
    simp
  constructor
  · rw [writeOps_createTxPlan, h0]
  · simp [createTxPlan, h0]

/-- C9.  For every payload of length `L` and every rent oracle, the
plan's first operation creates the buffer (escrow) account with size
exactly `L + 37` and funds it with precisely the oracle's answer for
that size; the create-program (target) operation — the second-to-last —
has size 36 and carries the oracle's answer for 36; the final deploy
operation's `maxDataLen` is exactly `L + 10000`.  Both lamport amounts
are the uninterpreted `rentFn`'s values, so they come from the external
rent-exemption query and are never computed locally. -/
theorem claim_C9_sizes_and_rent (env : PlanEnv) (rentFn : Nat → Nat)
    (payload : List Nat) :
    (createTxPlan env rentFn payload).head?
      = some (Operation.createAccount env.deployerVault env.bufferAddr
          (rentFn (payload.length + 37)) (payload.length + 37) env.loaderAddr)
    ∧ (createTxPlan env rentFn payload).getLast?
      = some (Operation.deploy env.deployerVault env.bufferAddr env.deployerVault
          env.programDataAddr env.programAddr (payload.length + 10000))
    ∧ ((createTxPlan env rentFn payload).drop
          ((createTxPlan env rentFn payload).length - 2)).head?
      = some (Operation.createAccount env.deployerVault env.programAddr
          (rentFn 36) 36 env.loaderAddr) := by
  obtain ⟨mid, hplan⟩ : ∃ mid, createTxPlan env rentFn payload
      = [Operation.createAccount env.deployerVault env.bufferAddr
           (rentFn (payload.length + 37)) (payload.length + 37) env.loaderAddr,
         Operation.initBuffer env.bufferAddr env.deployerVault]
        ++ mid
        ++ [Operation.createAccount env.deployerVault env.programAddr (rentFn 36) 36
             env.loaderAddr,
           Operation.deploy env.deployerVault env.bufferAddr env.deployerVault
             env.programDataAddr env.programAddr (payload.length + 10000)] :=
    ⟨writeLoop env payload 0, rfl⟩
  refine ⟨?_, ?_, ?_⟩
  · rw [hplan]
    rfl
  · rw [hplan, List.getLast?_append]
    rfl
  · rw [hplan]
    have h2 : (([Operation.createAccount env.deployerVault env.bufferAddr
           (rentFn (payload.length + 37)) (payload.length + 37) env.loaderAddr,
         Operation.initBuffer env.bufferAddr env.deployerVault]
        ++ mid
        ++ [Operation.createAccount env.deployerVault env.programAddr (rentFn 36) 36
             env.loaderAddr,
           Operation.deploy env.deployerVault env.bufferAddr env.deployerVault
             env.programDataAddr env.programAddr (payload.length + 10000)]).length) - 2
        = ([Operation.createAccount env.deployerVault env.bufferAddr
           (rentFn (payload.length + 37)) (payload.length + 37) env.loaderAddr,
         Operation.initBuffer env.bufferAddr env.deployerVault]
        ++ mid).length + 0 := by
      simp
    rw [h2, List.drop_append]
    rfl

/-- Placeholder used with `List.getD`; it does not mutate the buffer, so
out-of-range indices never satisfy the mutation predicate. -/
def dummyOp : Operation := Operation.deploy "" "" "" "" "" 0

theorem writeLoop_all_write (env : PlanEnv) (payload : List Nat) (offset : Nat) :
    ∀ op ∈ writeLoop env payload offset,
      ∃ o b, op = Operation.writeChunk env.bufferAddr env.deployerVault o b := by
  intro op hop
  rw [writeLoop_eq_map] at hop
  obtain ⟨i, _, rfl⟩ := List.mem_map.mp hop
  exact ⟨_, _, rfl⟩

/-- C8.  Every plan is ordered create-buffer, initialize-buffer, the
write chunks, create-program, deploy; its length is
`ceil(L/900) + 4 = (L + 899) / 900 + 4`; every operation that mutates
the buffer (escrow) account sits at an index strictly after the creation
(index 0) and strictly before the deploy/finalize (last index); and for
a 1900-byte payload the plan has 7 operations whose writes sit at
offsets 0, 900, 1800 with lengths 900, 900, 100. -/
theorem claim_C8_plan_order (env : PlanEnv) (rentFn : Nat → Nat)
    (payload : List Nat) :
    createTxPlan env rentFn payload
      = [Operation.createAccount env.deployerVault env.bufferAddr
           (rentFn (payload.length + 37)) (payload.length + 37) env.loaderAddr,
         Operation.initBuffer env.bufferAddr env.deployerVault]
        ++ writeOps (createTxPlan env rentFn payload)
        ++ [Operation.createAccount env.deployerVault env.programAddr (rentFn 36) 36
             env.loaderAddr,
           Operation.deploy env.deployerVault env.bufferAddr env.deployerVault
             env.programDataAddr env.programAddr (payload.length + 10000)]
    ∧ (createTxPlan env rentFn payload).length = (payload.length + 899) / 900 + 4
    ∧ (∀ i, ((createTxPlan env rentFn payload).getD i dummyOp).mutatesBuffer env
          = true →
        0 < i ∧ i < (createTxPlan env rentFn payload).length - 1)
    ∧ (payload.length = 1900 →
        (createTxPlan env rentFn payload).length = 7
        ∧ (writeOps (createTxPlan env rentFn payload)).map Operation.chunkOffset
            = [0, 900, 1800]
        ∧ (writeOps (createTxPlan env rentFn payload)).map
            (fun op => op.chunkBytes.length) = [900, 900, 100]) := by
  have hlen : (createTxPlan env rentFn payload).length
      = (payload.length + 899) / 900 + 4 := by
    show ((_ ++ writeLoop env payload 0) ++ _).length = _
    rw [List.length_append, List.length_append, writeLoop_length]
    simp
    omega
  refine ⟨by rw [writeOps_createTxPlan]; rfl, hlen, ?_, ?_⟩
  · intro i hmut
    have hplan : createTxPlan env rentFn payload
        = Operation.createAccount env.deployerVault env.bufferAddr
            (rentFn (payload.length + 37)) (payload.length + 37) env.loaderAddr
          :: Operation.initBuffer env.bufferAddr env.deployerVault
          :: (writeLoop env payload 0
              ++ [Operation.createAccount env.deployerVault env.programAddr
                    (rentFn 36) 36 env.loaderAddr,
                  Operation.deploy env.deployerVault env.bufferAddr env.deployerVault
                    env.programDataAddr env.programAddr
                    (payload.length + 10000)]) := rfl
    match i with
    | 0 =>
      rw [hplan] at hmut
      simp [List.getD, Operation.mutatesBuffer] at hmut
    | 1 =>
      refine ⟨by omega, ?_⟩
      omega
    | n + 2 =>
      rw [hplan] at hmut
      have hmut' : ((writeLoop env payload 0
          ++ [Operation.createAccount env.deployerVault env.programAddr
                (rentFn 36) 36 env.loaderAddr,
              Operation.deploy env.deployerVault env.bufferAddr env.deployerVault
                env.programDataAddr env.programAddr
                (payload.length + 10000)]).getD n dummyOp).mutatesBuffer env
          = true := hmut
      by_cases hn : n < (writeLoop env payload 0).length
      · refine ⟨by omega, ?_⟩
        rw [hlen, writeLoop_length] at *
        simp at hn
        omega
      · exfalso
        rw [List.getD_append_right _ _ _ _ (by omega)] at hmut'
        have h2 : n - (writeLoop env payload 0).length < 2
            ∨ 2 ≤ n - (writeLoop env payload 0).length := by omega
        rcases h2 with h2 | h2
        · interval_cases h : (n - (writeLoop env payload 0).length) <;>
            simp [h, List.getD, Operation.mutatesBuffer] at hmut'
        · rw [List.getD_eq_default _ _ (by simp; omega)] at hmut'
          simp [dummyOp, Operation.mutatesBuffer] at hmut'
  · intro h1900
    refine ⟨by omega, ?_, ?_⟩
    · rw [writeOps_createTxPlan, writeLoop_eq_map, List.map_map, h1900]
      norm_num
      have hr : List.range 3 = [0, 1, 2] := rfl
      rw [hr]
      simp [Operation.chunkOffset]
    · rw [writeOps_createTxPlan, writeLoop_eq_map, List.map_map, h1900]
      norm_num
      have hr : List.range 3 = [0, 1, 2] := rfl
      rw [hr]
      simp [Operation.chunkBytes, h1900]

/-! ## Executor step lemmas -/

theorem execRetryLoop_ok (outcomes : Nat → AttemptResult) (a r : Nat)
    (last : Option JsError) (tx : String) (h : outcomes a = .ok tx) :
    execRetryLoop outcomes a (r + 1) last = .success tx a := by
  simp [execRetryLoop, h]

theorem execRetryLoop_errRec (outcomes : Nat → AttemptResult) (a r : Nat)
    (last : Option JsError) (e : JsError) (h : outcomes a = .err e)
    (hb : isBlockhashExpiredError e = true) :
    execRetryLoop outcomes a (r + 1) last
      = execRetryLoop outcomes (a + 1) r (some e) := by
  simp [execRetryLoop, h, hb]

theorem execRetryLoop_errFatal (outcomes : Nat → AttemptResult) (a r : Nat)
    (last : Option JsError) (e : JsError) (h : outcomes a = .err e)
    (hb : isBlockhashExpiredError e = false) :
    execRetryLoop outcomes a (r + 1) last = .thrown e a := by
  simp [execRetryLoop, h, hb]

theorem execRetryLoop_zero (outcomes : Nat → AttemptResult) (a : Nat)
    (last : Option JsError) :
    execRetryLoop outcomes a 0 last = .exhausted (a - 1) last := rfl

/-- Once the loop is entered at attempt `a` with at least one attempt
left, the recorded attempt count is at least `a`. -/
theorem execRetryLoop_attempts_ge (outcomes : Nat → AttemptResult) :
    ∀ r a last, 1 ≤ r → a ≤ (execRetryLoop outcomes a r last).attempts := by
  intro r
  induction r with
  | zero => intro a last h; exact absurd h (by omega)
  | succ r ih =>
    intro a last _
    cases ho : outcomes a with
    | ok tx =>
      rw [execRetryLoop_ok _ _ _ _ _ ho]
      simp [ExecResult.attempts]
    | err e =>
      cases hb : isBlockhashExpiredError e with
      | true =>
        rw [execRetryLoop_errRec _ _ _ _ _ ho hb]
        cases r with
        | zero =>
          rw [execRetryLoop_zero]
          simp [ExecResult.attempts]
        | succ r' =>
          have := ih (a + 1) (some e) (by omega)
          omega
      | false =>
        rw [execRetryLoop_errFatal _ _ _ _ _ ho hb]
        simp [ExecResult.attempts]

/-- C3.  If every sign-and-broadcast attempt fails with a
blockhash-expiry error, `executeTransactionMessage` makes exactly
`maxRetries = 3` attempts and then throws the last error; the hypothesis
constrains only attempts 1..3, and the result is fully determined by
them, so a fourth attempt is never consulted. -/
theorem claim_C3_retry_bound (outcomes : Nat → AttemptResult) (e : Nat → JsError)
    (h : ∀ n, 1 ≤ n → n ≤ 3 →
        outcomes n = .err (e n) ∧ isBlockhashExpiredError (e n) = true) :
    executeTransactionMessage outcomes = .exhausted 3 (some (e 3))
    ∧ (executeTransactionMessage outcomes).attempts = maxRetries := by
  obtain ⟨h1, h1b⟩ := h 1 (by omega) (by omega)
  obtain ⟨h2, h2b⟩ := h 2 (by omega) (by omega)
  obtain ⟨h3, h3b⟩ := h 3 (by omega) (by omega)
  have hrun : executeTransactionMessage outcomes = .exhausted 3 (some (e 3)) := by
    show execRetryLoop outcomes 1 (2 + 1) none = _
    rw [execRetryLoop_errRec _ _ _ _ _ h1 h1b]
    show execRetryLoop outcomes 2 (1 + 1) (some (e 1)) = _
    rw [execRetryLoop_errRec _ _ _ _ _ h2 h2b]
    show execRetryLoop outcomes 3 (0 + 1) (some (e 2)) = _
    rw [execRetryLoop_errRec _ _ _ _ _ h3 h3b]
    rfl
  exact ⟨hrun, by rw [hrun]; rfl⟩

/-- An error that always reports blockhash expiry, for concrete runs. -/
def sampleExpiredErr : JsError := { causeMsg := none, msg := some "Blockhash not found" }

/-- A non-recoverable error (no blockhash mention in its message). -/
def sampleFatalErr : JsError :=
  { causeMsg := none, msg := some "custom program error: 0x1" }

/-- An error that is not a lifetime expiry but whose message mentions
the word blockhash. -/
def sampleMentionErr : JsError :=
  { causeMsg := none, msg := some "failed to parse blockhash parameter" }

theorem sampleExpiredErr_recoverable :
    isBlockhashExpiredError sampleExpiredErr = true := by decide

theorem sampleFatalErr_fatal :
    isBlockhashExpiredError sampleFatalErr = false := by decide

theorem sampleMentionErr_recoverable :
    isBlockhashExpiredError sampleMentionErr = true := by decide

/-- C3 witness: a concrete oracle failing with a blockhash error on
every attempt is tried exactly three times. -/
theorem claim_C3_witness :
    executeTransactionMessage (fun _ => .err sampleExpiredErr)
        = .exhausted 3 (some sampleExpiredErr)
    ∧ (executeTransactionMessage (fun _ => .err sampleExpiredErr)).attempts
        = maxRetries :=
  claim_C3_retry_bound (fun _ => .err sampleExpiredErr) (fun _ => sampleExpiredErr)
    (fun _ _ _ => ⟨rfl, sampleExpiredErr_recoverable⟩)

theorem runPlanFrom_abort (bad : Nat → AttemptResult) (e : JsError)
    (hbad : bad 1 = .err e) (hrec : isBlockhashExpiredError e = false)
    (rest : List (Nat → AttemptResult)) :
    ∀ (pre : List (Nat → AttemptResult)) (k : Nat),
      (∀ t ∈ pre, ∃ tx a, executeTransactionMessage t = .success tx a) →
      runPlanFrom k (pre ++ bad :: rest) = .error (k + pre.length, some e) := by
  intro pre
  induction pre with
  | nil =>
    intro k _
    have hb : executeTransactionMessage bad = .thrown e 1 := by
      show execRetryLoop bad 1 (2 + 1) none = _
      rw [execRetryLoop_errFatal _ _ _ _ _ hbad hrec]
    simp [runPlanFrom, hb]
  | cons t pre ih =>
    intro k hpre
    obtain ⟨tx, a, ht⟩ := hpre t (by simp)
    have hrest := ih (k + 1) (fun t' ht' => hpre t' (by simp [ht']))
    have harith : k + 1 + pre.length = k + (pre.length + 1) := by omega
    rw [harith] at hrest
    simp [runPlanFrom, ht, hrest]

/-- C4.  If transaction `k` (zero-based: `k = pre.length`) fails on its
first attempt with an error that carries no blockhash signal, the retry
loop rethrows at once after a single attempt, and the sequential plan
run aborts with index `k`: the conclusion does not depend on `rest`, so
the transactions after `k` are never attempted. -/
theorem claim_C4_abort_on_fatal (pre : List (Nat → AttemptResult))
    (bad : Nat → AttemptResult) (rest : List (Nat → AttemptResult)) (e : JsError)
    (hbad : bad 1 = .err e) (hrec : isBlockhashExpiredError e = false)
    (hpre : ∀ t ∈ pre, ∃ tx a, executeTransactionMessage t = .success tx a) :
    runPlan (pre ++ bad :: rest) = .error (pre.length, some e)
    ∧ executeTransactionMessage bad = .thrown e 1 := by
  constructor
  · have h := runPlanFrom_abort bad e hbad hrec rest pre 0 hpre
    simpa using h
  · show execRetryLoop bad 1 (2 + 1) none = _
    rw [execRetryLoop_errFatal _ _ _ _ _ hbad hrec]

/-- C4 witness: in a concrete three-transaction plan whose second
transaction fails fatally on its first attempt, the run aborts at index
1 and the second transaction is attempted exactly once. -/
theorem claim_C4_witness :
    runPlan [fun _ => .ok "TX0", fun _ => .err sampleFatalErr, fun _ => .ok "TX2"]
        = .error (1, some sampleFatalErr)
    ∧ executeTransactionMessage (fun _ => .err sampleFatalErr)
        = .thrown sampleFatalErr 1 :=
  claim_C4_abort_on_fatal [fun _ => .ok "TX0"] (fun _ => .err sampleFatalErr)
    [fun _ => .ok "TX2"] sampleFatalErr rfl sampleFatalErr_fatal
    (fun t ht => by
      rw [List.mem_singleton] at ht
      exact ⟨"TX0", 1, by rw [ht]; rfl⟩)

/-- C10.  The executor's recoverability test is a pure substring match:
with `errorMsg = error.cause.message || error.message || ''` (the
cause's message when present and non-empty, else the error's own), a
first-attempt error is retried (a second attempt happens) if and only if
`errorMsg` contains the substring `Blockhash not found` or the lowercase
substring `blockhash`; otherwise it is rethrown immediately.  In
particular an error that is not a lifetime expiry but merely mentions
the word blockhash is retried instead of aborting. -/
theorem claim_C10_substring_guard (outcomes : Nat → AttemptResult) (e : JsError)
    (h1 : outcomes 1 = .err e) :
    (2 ≤ (executeTransactionMessage outcomes).attempts
      ↔ (strIncludes e.errorMsg "Blockhash not found"
          || strIncludes e.errorMsg "blockhash") = true)
    ∧ (isBlockhashExpiredError e = false →
        executeTransactionMessage outcomes = .thrown e 1) := by
  have hfatal : isBlockhashExpiredError e = false →
      executeTransactionMessage outcomes = .thrown e 1 := by
    intro hb
    show execRetryLoop outcomes 1 (2 + 1) none = _
    rw [execRetryLoop_errFatal _ _ _ _ _ h1 hb]
  refine ⟨⟨?_, ?_⟩, hfatal⟩
  · intro hge
    by_contra hneg
    have hb : isBlockhashExpiredError e = false := eq_false_of_ne_true hneg
    rw [hfatal hb] at hge
    simp [ExecResult.attempts] at hge
  · intro hor
    have hb : isBlockhashExpiredError e = true := hor
    have hstep : executeTransactionMessage outcomes
        = execRetryLoop outcomes 2 2 (some e) := by
      show execRetryLoop outcomes 1 (2 + 1) none = _
      rw [execRetryLoop_errRec _ _ _ _ _ h1 hb]
    rw [hstep]
    exact execRetryLoop_attempts_ge outcomes 2 2 (some e) (by omega)

/-- C10 witness: a concrete error whose message merely mentions the
word blockhash (a parse failure, not an expiry) does get retried. -/
theorem claim_C10_witness :
    ((2 ≤ (executeTransactionMessage (fun _ => .err sampleMentionErr)).attempts
        ↔ (strIncludes sampleMentionErr.errorMsg "Blockhash not found"
            || strIncludes sampleMentionErr.errorMsg "blockhash") = true)
      ∧ (isBlockhashExpiredError sampleMentionErr = false →
          executeTransactionMessage (fun _ => .err sampleMentionErr)
            = .thrown sampleMentionErr 1))
    ∧ 2 ≤ (executeTransactionMessage (fun _ => .err sampleMentionErr)).attempts := by
  have h := claim_C10_substring_guard (fun _ => .err sampleMentionErr)
    sampleMentionErr rfl
  exact ⟨h, h.1.mpr (by decide)⟩

/-- C6.  Every request body the signing adapter submits — the same body
builder serves every transaction kind, since both call sites
(the deploy executor's setup/write/finalize transactions in src/run.ts
and the close transaction in src/close-buffer.ts) go through
`signWithFordefi` — carries `skip_prediction = true` and
`fee = { type: "custom", unit_price: f }`, where `f` is the
caller-supplied custom fee when one is given (the call sites never pass
an empty string; JavaScript `||` would fall back on one) and otherwise
the configured constant `defaultFeeLamports = '5000'`; the oracle's own
estimate is never consulted. -/
theorem claim_C6_fee_override (vaultId vaultAddress : String)
    (customFee : Option String) (hfee : ∀ s, customFee = some s → s ≠ "")
    (data : String) (sigs : List (Option String)) :
    (signWithFordefiBody (mkFordefiConfig vaultId vaultAddress) customFee data
        sigs).details.skip_prediction = true
    ∧ (signWithFordefiBody (mkFordefiConfig vaultId vaultAddress) customFee data
        sigs).details.fee
      = { type := "custom",
          unit_price := customFee.getD
            (mkFordefiConfig vaultId vaultAddress).defaultFeeLamports }
    ∧ (mkFordefiConfig vaultId vaultAddress).defaultFeeLamports = "5000" := by
  refine ⟨rfl, ?_, rfl⟩
  cases customFee with
  | none => rfl
  | some s =>
    have hs := hfee s rfl
    simp [signWithFordefiBody, jsOr, hs]

/-- C6 witness at the call sites' actual argument (no custom fee): the
unit price is the constant 5000. -/
theorem claim_C6_witness :
    (signWithFordefiBody (mkFordefiConfig "VID" "VADDR") none "DATA"
        [none, some "LOCALSIG"]).details.skip_prediction = true
    ∧ (signWithFordefiBody (mkFordefiConfig "VID" "VADDR") none "DATA"
        [none, some "LOCALSIG"]).details.fee
      = { type := "custom",
          unit_price := (none : Option String).getD
            (mkFordefiConfig "VID" "VADDR").defaultFeeLamports }
    ∧ (mkFordefiConfig "VID" "VADDR").defaultFeeLamports = "5000" :=
  claim_C6_fee_override "VID" "VADDR" none (fun _ h => Option.noConfusion h)
    "DATA" [none, some "LOCALSIG"]

/-- C7 counterexample.  The recovery utility performs no retry at all:
with an existing buffer account and a signing step that fails with the
canonical lifetime-expiry message, the run makes exactly one sign
attempt (`events = [signAttempt]`) and fails, instead of retrying once
as the claim states. -/
theorem claim_C7_counterexample :
    closeBufferMain (mkFordefiConfig "VID" "VADDR") "TOKEN" "BUFFER" (some 1000000)
        (.error { causeMsg := none, msg := some "Blockhash not found" }) (.ok "SIG")
      = { result := .failed { causeMsg := none, msg := some "Blockhash not found" },
          builtOps := [Operation.close "BUFFER" "VADDR" "VADDR"],
          events := [.signAttempt] } := rfl

/-- C7 amended.  When the buffer account does not exist the utility
reports not-found without signing or broadcasting anything; when it
exists, it builds exactly one close operation sending the balance to the
configured recipient, signs it through the same adapter exactly once —
with no retry on a lifetime-expiry failure, which simply propagates —
and on successful signing broadcasts exactly once. -/
theorem claim_C7_amended (cfg : FordefiConfigModel)
    (accessToken bufferAddress : String) (accountInfo : Option Nat)
    (signOutcome broadcastOutcome : Except JsError String)
    (htok : accessToken ≠ "") (run : CloseRun)
    (hrun : run = closeBufferMain cfg accessToken bufferAddress accountInfo
        signOutcome broadcastOutcome) :
    (accountInfo = none →
      run = { result := .accountNotFound, builtOps := [], events := [] })
    ∧ (∀ l, accountInfo = some l →
        run.builtOps
            = [Operation.close bufferAddress cfg.deployerVaultAddress
                cfg.deployerVaultAddress]
        ∧ run.events.count CloseEvent.signAttempt = 1
        ∧ run.events.count CloseEvent.broadcast ≤ 1
        ∧ (∀ e, signOutcome = .error e →
            run.result = .failed e ∧ run.events = [CloseEvent.signAttempt])
        ∧ (∀ tx sig, signOutcome = .ok tx → broadcastOutcome = .ok sig →
            run.result = .finished sig
            ∧ run.events = [CloseEvent.signAttempt, CloseEvent.broadcast])) := by
  subst hrun
  unfold closeBufferMain
  rw [if_neg htok]
  constructor
  · intro hnone
    rw [hnone]
  · intro l hl
    rw [hl]
    cases signOutcome with
    | error e =>
      refine ⟨rfl, rfl, Nat.zero_le 1, ?_, ?_⟩
      · intro e' he'
        cases he'
        exact ⟨rfl, rfl⟩
      · intro tx sig htx _
        exact absurd htx (by simp)
    | ok tx =>
      cases broadcastOutcome with
      | error e =>
        refine ⟨rfl, rfl, Nat.le_refl 1, ?_, ?_⟩
        · intro e' he'
          exact absurd he' (by simp)
        · intro tx' sig' _ hsig
          exact absurd hsig (by simp)
      | ok sig =>
        refine ⟨rfl, rfl, Nat.le_refl 1, ?_, ?_⟩
        · intro e' he'
          exact absurd he' (by simp)
        · intro tx' sig' htx hsig
          cases htx
          cases hsig
          exact ⟨rfl, rfl⟩

/-- C7 witness: a concrete successful recovery run signs once and
broadcasts once. -/
theorem claim_C7_witness :
    ((some 1000000 : Option Nat) = none →
      closeBufferMain (mkFordefiConfig "VID" "VADDR") "TOKEN" "BUFFER"
          (some 1000000) (.ok "TX") (.ok "SIG")
        = { result := .accountNotFound, builtOps := [], events := [] })
    ∧ (∀ l, (some 1000000 : Option Nat) = some l →
        (closeBufferMain (mkFordefiConfig "VID" "VADDR") "TOKEN" "BUFFER"
            (some 1000000) (.ok "TX") (.ok "SIG")).builtOps
            = [Operation.close "BUFFER"
                (mkFordefiConfig "VID" "VADDR").deployerVaultAddress
                (mkFordefiConfig "VID" "VADDR").deployerVaultAddress]
        ∧ (closeBufferMain (mkFordefiConfig "VID" "VADDR") "TOKEN" "BUFFER"
            (some 1000000) (.ok "TX") (.ok "SIG")).events.count
              CloseEvent.signAttempt = 1
        ∧ (closeBufferMain (mkFordefiConfig "VID" "VADDR") "TOKEN" "BUFFER"
            (some 1000000) (.ok "TX") (.ok "SIG")).events.count
              CloseEvent.broadcast ≤ 1
        ∧ (∀ e, (Except.ok "TX" : Except JsError String) = .error e →
            (closeBufferMain (mkFordefiConfig "VID" "VADDR") "TOKEN" "BUFFER"
              (some 1000000) (.ok "TX") (.ok "SIG")).result = .failed e
            ∧ (closeBufferMain (mkFordefiConfig "VID" "VADDR") "TOKEN" "BUFFER"
                (some 1000000) (.ok "TX") (.ok "SIG")).events
              = [CloseEvent.signAttempt])
        ∧ (∀ tx sig, (Except.ok "TX" : Except JsError String) = .ok tx →
            (Except.ok "SIG" : Except JsError String) = .ok sig →
            (closeBufferMain (mkFordefiConfig "VID" "VADDR") "TOKEN" "BUFFER"
              (some 1000000) (.ok "TX") (.ok "SIG")).result = .finished sig
            ∧ (closeBufferMain (mkFordefiConfig "VID" "VADDR") "TOKEN" "BUFFER"
                (some 1000000) (.ok "TX") (.ok "SIG")).events
              = [CloseEvent.signAttempt, CloseEvent.broadcast])) :=
  claim_C7_amended (mkFordefiConfig "VID" "VADDR") "TOKEN" "BUFFER" (some 1000000)
    (.ok "TX") (.ok "SIG") (by decide) _ rfl

/-- C8 witness at the spec's example scenario (1900-byte payload). -/
theorem claim_C8_witness :
    (createTxPlan sampleEnv (fun n => n) samplePayload).length = 7
    ∧ (writeOps (createTxPlan sampleEnv (fun n => n) samplePayload)).map
        Operation.chunkOffset = [0, 900, 1800]
    ∧ (writeOps (createTxPlan sampleEnv (fun n => n) samplePayload)).map
        (fun op => op.chunkBytes.length) = [900, 900, 100] :=
  (claim_C8_plan_order sampleEnv (fun n => n) samplePayload).2.2.2
    samplePayload_length

end SolanaDeploy
